import Mathlib

/-!
Verification of the UCSP campus-services backend.

This file shallowly embeds the validation and persistence logic of the
Django backend (models' `clean`/`save` methods, DRF serializer `validate`
hooks, and the function-based payment views) as executable Lean
definitions, and proves the behavioural properties stated in the
specification about them.

Conventions of the embedding:
- Django `DecimalField` values are rationals (`ℚ`); nullable fields are
  `Option`-typed.  Python truthiness of a nullable decimal (`not x`) is
  `pyFalsyQ` (true for `None` and for `0`).
- `DateTimeField` values are integers (an abstract linear timeline);
  `TimeField` values are naturals (minutes of the day).
- A table is a `List` of records; a row's primary key is its `id` field.
- A method that can raise `ValidationError` returns `Except String α`.
- DRF dispatches a field-level validator hook by name: for a declared
  field `f` it invokes the serializer method named `validate_f` when the
  class defines one, and otherwise applies no field-level validation.
  Serializer classes are embedded by their declared field list, their
  defined hook names, and the bodies of those hooks.
-/

namespace UCSP

/-- Python truthiness of an optional decimal: `None` and `0` are falsy. -/
def pyFalsyQ : Option ℚ → Bool
  | none => true
  | some q => q = 0

/-- Python truthiness of an optional string: `None` and `""` are falsy. -/
def pyFalsyS : Option String → Bool
  | none => true
  | some s => s = ""

/-- A user record (`users.User`): only the fields the validation logic
reads are embedded. -/
structure User where
  id : Nat
  user_type : String
deriving Repr, DecidableEq

/-- A service record (`services.Service`): fields read by the embedded
logic. -/
structure Service where
  id : Nat
  vendor : User
  service_name : String
  service_type : String
  base_price : Option ℚ
  has_flexible_pricing : Bool
  is_available : Bool
  contact_info : Option String
  rating : Option ℚ
  total_ratings : Nat
  supports_booking : Bool
  supports_ordering : Bool
  supports_walk_in : Bool
  requires_contact : Bool
deriving Repr, DecidableEq

/-- A booking record (`bookings.Booking`). -/
structure Booking where
  id : Nat
  serviceId : Nat
  student : User
  booking_date : Int
  booking_status : String
deriving Repr, DecidableEq

/-- A payment record (`payments.Payment`).  `booking` and `order` are the
two nullable foreign keys. -/
structure Payment where
  id : Nat
  booking : Option Nat
  order : Option Nat
  amount : ℚ
  payment_method : String
  mobile_money_provider : Option String
  phone_number : Option String
  transaction_id : String
  status : String
deriving Repr, DecidableEq

/-- `Payment.clean` (payments/models.py): amount must be positive, at
least one of booking/order must be set, and mobile-money payments need a
provider and a phone number. -/
def Payment.clean (p : Payment) : Except String Unit :=
  if p.amount ≤ 0 then
    Except.error "Payment amount must be greater than zero."
  else if p.booking.isNone && p.order.isNone then
    Except.error "Payment must be associated with either a booking or order."
  else if p.payment_method = "mobile_money" && pyFalsyS p.mobile_money_provider then
    Except.error "Mobile money provider is required for mobile money payments."
  else if p.payment_method = "mobile_money" && pyFalsyS p.phone_number then
    Except.error "Phone number is required for mobile money payments."
  else
    Except.ok ()

/-- The database check constraint `payment_has_booking_or_order`
(payments/models.py, `Payment.Meta.constraints`):
`Q(booking__isnull=False) | Q(order__isnull=False)`. -/
def paymentHasBookingOrOrder (p : Payment) : Bool :=
  p.booking.isSome || p.order.isSome

/-- `Payment.save` (payments/models.py): generate a transaction id when
missing, run `clean`, then insert, the database enforcing the check
constraint (a violation surfaces as an integrity error). -/
def Payment.save (db : List Payment) (p : Payment) : Except String (List Payment) := do
  let p := if p.transaction_id = "" then { p with transaction_id := "TXN_GEN" } else p
  Payment.clean p
  if paymentHasBookingOrOrder p then
    Except.ok (db ++ [p])
  else
    Except.error "IntegrityError: payment_has_booking_or_order"

/-- `Booking.clean` (bookings/models.py): only students may book, and no
other row (`.exclude(id=self.id)`) may hold the same service and
booking date. -/
def Booking.clean (db : List Booking) (b : Booking) : Except String Unit :=
  if b.student.user_type ≠ "student" then
    Except.error "Only users with student type can make bookings."
  else if (db.filter (fun x =>
      x.serviceId = b.serviceId && x.booking_date = b.booking_date && x.id ≠ b.id)).isEmpty = false then
    Except.error "Sorry, this service is already booked for this time slot."
  else
    Except.ok ()

/-- `Booking.save` for a new row (bookings/models.py): `full_clean` then
insert; the unique constraint on `(service, booking_date)` is enforced by
the database as a backstop. -/
def Booking.saveNew (db : List Booking) (b : Booking) : Except String (List Booking) := do
  Booking.clean db b
  if (db.filter (fun x =>
      x.serviceId = b.serviceId && x.booking_date = b.booking_date)).isEmpty = false then
    Except.error "IntegrityError: unique_service_booking"
  else
    Except.ok (db ++ [b])

/-- `Booking.save` for an update of an existing row: `full_clean`, then
replace the row with the same primary key. -/
def Booking.saveUpdate (db : List Booking) (b : Booking) : Except String (List Booking) := do
  Booking.clean db b
  Except.ok (db.map (fun x => if x.id = b.id then b else x))

/-- No service is double-booked: any two rows with distinct primary keys
differ in the pair `(service, booking_date)`. -/
def noDoubleBooking (db : List Booking) : Prop :=
  ∀ x ∈ db, ∀ y ∈ db, x.id ≠ y.id →
    (x.serviceId, x.booking_date) ≠ (y.serviceId, y.booking_date)

/-! ### DRF serializer hook dispatch

DRF runs the field-level validator of a declared field `f` only when the
serializer class defines a method named `validate_f`; otherwise the value
passes straight through (after the choice-field check).  Each serializer
below is embedded by its declared fields, the names of the hooks its
class body defines, and the hook bodies. -/

/-- Whether DRF invokes a field-level hook: the class must define a method
whose name is exactly `validate_` followed by the field name. -/
def drfHookDefined (definedHooks : List String) (fieldName : String) : Bool :=
  definedHooks.contains ("validate_" ++ fieldName)

/-- Look up a key in a literal transition-table dictionary, defaulting to
`[]` as `dict.get(current_status, [])` does. -/
def transitionsFor (table : List (String × List String)) (current : String) : List String :=
  ((table.find? (fun kv => kv.1 = current)).map (fun kv => kv.2)).getD []

/-- The static booking transition table
(bookings/serializers.py, `BookingStatusUpdateSerializer.validate_status`). -/
def bookingValidTransitions : List (String × List String) :=
  [("pending", ["confirmed", "cancelled"]),
   ("confirmed", ["completed", "cancelled"]),
   ("completed", []),
   ("cancelled", [])]

/-- Body of `BookingStatusUpdateSerializer.validate_status`: with a bound
instance, reject a target not whitelisted for the current status. -/
def bookingValidateStatusBody (current value : String) : Except String String :=
  if (transitionsFor bookingValidTransitions current).contains value then
    Except.ok value
  else
    Except.error "Cannot change status."

/-- Declared fields of `BookingStatusUpdateSerializer`
(`Meta.fields = ['booking_status']`). -/
def bookingStatusUpdateFields : List String := ["booking_status"]

/-- Validator hooks defined in the body of `BookingStatusUpdateSerializer`:
the class defines only `validate_status`. -/
def bookingStatusUpdateHooks : List String := ["validate_status"]

/-- Model choices for `Booking.booking_status`. -/
def bookingStatusChoices : List String :=
  ["pending", "confirmed", "cancelled", "completed"]

/-- `is_valid` of `BookingStatusUpdateSerializer` on data
`{booking_status: target}` for an instance whose current status is
`current`: the choice field validates membership in the model choices,
then DRF runs the hook named `validate_booking_status` if the class
defines one. -/
def bookingStatusUpdateIsValid (current target : String) : Except String String :=
  if bookingStatusChoices.contains target then
    if drfHookDefined bookingStatusUpdateHooks "booking_status" then
      bookingValidateStatusBody current target
    else
      Except.ok target
  else
    Except.error "Not a valid choice."

/-- A status update through `BookingStatusUpdateSerializer` followed by
`serializer.save()`: on valid data, write the new status through the
model's `save` (which re-runs `full_clean`). -/
def bookingStatusUpdateSave (db : List Booking) (b : Booking) (target : String) :
    Except String (List Booking × Booking) := do
  let v ← bookingStatusUpdateIsValid b.booking_status target
  let b' := { b with booking_status := v }
  let db' ← Booking.saveUpdate db b'
  Except.ok (db', b')

/-- The static payment transition table
(payments/serializers.py, `PaymentStatusUpdateSerializer.validate_status`). -/
def paymentValidTransitions : List (String × List String) :=
  [("pending", ["successful", "failed"]),
   ("successful", []),
   ("failed", ["pending"])]

/-- Body of `PaymentStatusUpdateSerializer.validate_status`. -/
def paymentValidateStatusBody (current value : String) : Except String String :=
  if (transitionsFor paymentValidTransitions current).contains value then
    Except.ok value
  else
    Except.error "Cannot change status."

/-- Declared fields of `PaymentStatusUpdateSerializer`
(`Meta.fields = ['status', 'transaction_id']`). -/
def paymentStatusUpdateFields : List String := ["status", "transaction_id"]

/-- Validator hooks defined in the body of `PaymentStatusUpdateSerializer`. -/
def paymentStatusUpdateHooks : List String := ["validate_status"]

/-- Model choices for `Payment.status`. -/
def paymentStatusChoices : List String :=
  ["pending", "processing", "successful", "failed", "cancelled", "refunded"]

/-- `is_valid` of `PaymentStatusUpdateSerializer` on data
`{status: target}` for an instance whose current status is `current`. -/
def paymentStatusUpdateIsValid (current target : String) : Except String String :=
  if paymentStatusChoices.contains target then
    if drfHookDefined paymentStatusUpdateHooks "status" then
      paymentValidateStatusBody current target
    else
      Except.ok target
  else
    Except.error "Not a valid choice."

/-! ### Booking creation (`BookingSerializer` + `BookingViewSet.perform_create`) -/

/-- `BookingSerializer.validate_booking_date`: the date must be strictly
after the current time. -/
def validateBookingDate (now value : Int) : Except String Int :=
  if value ≤ now then
    Except.error "Booking date must be in the future."
  else
    Except.ok value

/-- `BookingSerializer.validate`: the service must be available, and for a
new booking no pending or confirmed booking may exist for the same
service and date. -/
def bookingSerializerValidate (db : List Booking) (service : Service)
    (booking_date : Int) (isNewBooking : Bool) : Except String Unit :=
  if service.is_available = false then
    Except.error "This service is not available for booking."
  else if isNewBooking &&
      (db.filter (fun x =>
        x.serviceId = service.id && x.booking_date = booking_date &&
          (x.booking_status = "pending" || x.booking_status = "confirmed"))).isEmpty = false then
    Except.error "This time slot is already booked. Please choose a different time."
  else
    Except.ok ()

/-- Creating a booking through the booking resource: DRF runs the field
validator, then object-level `validate`; `perform_create` then saves with
`student=self.request.user`.  The `student` field is declared read-only,
so `suppliedStudent` from the request body is never consulted (it appears
as an argument only to state that fact).  `freshId` is the primary key
the database assigns to the new row. -/
def createBooking (db : List Booking) (now : Int) (requestUser : User)
    (service : Service) (booking_date : Int) (suppliedStudent : Option User)
    (freshId : Nat) : Except String (List Booking × Booking) := do
  let d ← validateBookingDate now booking_date
  bookingSerializerValidate db service d true
  let b : Booking :=
    { id := freshId, serviceId := service.id, student := requestUser,
      booking_date := d, booking_status := "pending" }
  let db' ← Booking.saveNew db b
  Except.ok (db', b)

/-! ### Payment processing (`process_paystack_payment`, payments/views.py) -/

/-- An HTTP response is embedded as its status code. -/
abbrev HttpStatus := Nat

/-- Outcome of `process_paystack_payment`: response code plus the final
payment and booking rows. -/
structure ProcessResult where
  code : HttpStatus
  payment : Payment
  booking : Booking
  bookings : List Booking
deriving Repr, DecidableEq

/-- `process_paystack_payment` (payments/views.py) for a request holding
`payment_id` and `reference`, acting on payment `p` whose booking row is
`b` (the view reads `payment.booking.student`, so this embedding covers
payments attached to a booking; `db` is the bookings table).  The view:
rejects a missing `payment_id` or `reference` with 400; rejects a
requester who is not the booking's student with 403; rejects an already
successful payment with 400; otherwise validates the transition to
`successful` through `PaymentStatusUpdateSerializer`, saves the payment,
and promotes a pending booking to confirmed.  Any exception raised inside
(for instance by a model `clean`) yields the generic 500 response. -/
def processPaystackPayment (requestUser : User)
    (payment_id : Option Nat) (reference : Option String)
    (p : Payment) (b : Booking) (db : List Booking) : ProcessResult :=
  if payment_id.isNone then
    ⟨400, p, b, db⟩
  else if pyFalsyS reference then
    ⟨400, p, b, db⟩
  else if b.student ≠ requestUser then
    ⟨403, p, b, db⟩
  else if p.status = "successful" then
    ⟨400, p, b, db⟩
  else
    match paymentStatusUpdateIsValid p.status "successful" with
    | Except.error _ => ⟨400, p, b, db⟩
    | Except.ok v =>
      let p' := { p with status := v }
      match Payment.clean p' with
      | Except.error _ => ⟨500, p, b, db⟩
      | Except.ok _ =>
        if b.booking_status = "pending" then
          let b' := { b with booking_status := "confirmed" }
          match Booking.saveUpdate db b' with
          | Except.error _ => ⟨500, p', b, db⟩
          | Except.ok db' => ⟨200, p', b', db'⟩
        else
          ⟨200, p', b, db⟩

/-! ### Services, orders and order items (services/models.py) -/

/-- `Service.clean`: positive base price when set, vendor-typed owner, and
contact info for contact-type services. -/
def Service.clean (s : Service) : Except String Unit :=
  if (match s.base_price with | some p => decide (p ≤ 0) | none => false) then
    Except.error "Base price must be greater than zero."
  else if s.vendor.user_type ≠ "vendor" then
    Except.error "Only users with vendor type can create services."
  else if s.service_type = "contact" && pyFalsyS s.contact_info then
    Except.error "Contact information is required for contact-type services."
  else
    Except.ok ()

/-- `Service.save`: derive the four support flags from `service_type`,
overwriting whatever the caller set, then run `clean` and persist. -/
def Service.save (s : Service) : Except String Service := do
  let s := { s with
    supports_booking := s.service_type = "booking",
    supports_ordering := s.service_type = "ordering",
    supports_walk_in := s.service_type = "walk_in",
    requires_contact := s.service_type = "contact" }
  Service.clean s
  Except.ok s

/-- A service item (`services.ServiceItem`): per-item price within a
service. -/
structure ServiceItem where
  id : Nat
  serviceId : Nat
  name : String
  price : ℚ
  is_available : Bool
deriving Repr, DecidableEq

/-- An order item (`services.OrderItem`).  `unit_price` and `total_price`
may be unset before the first save. -/
structure OrderItem where
  id : Nat
  orderId : Nat
  service_item : ServiceItem
  quantity : Nat
  unit_price : Option ℚ
  total_price : Option ℚ
deriving Repr, DecidableEq

/-- `OrderItem.save`: default the unit price from the referenced service
item when unset (`if not self.unit_price`), then store
`total_price = unit_price * quantity`. -/
def OrderItem.save (it : OrderItem) : OrderItem :=
  let up := if pyFalsyQ it.unit_price then it.service_item.price else it.unit_price.getD 0
  { it with unit_price := some up, total_price := some (up * it.quantity) }

/-- An order (`services.Order`).  `total_amount` may be unset before the
first save. -/
structure Order where
  id : Nat
  service : Service
  customer : User
  order_status : String
  total_amount : Option ℚ
deriving Repr, DecidableEq

/-- `Order.calculate_total`: sum of `total_price` over the order's items
(an unset `total_price` reads as Python `None` never occurs on saved
items; the fold uses 0 for such a row, matching a fresh Decimal sum of
nothing). -/
def Order.calculate_total (items : List OrderItem) : ℚ :=
  items.foldl (fun acc it => acc + (it.total_price.getD 0)) 0

/-- `Order.clean`: customer must be a student, the service must be an
ordering-type service, and the service must be available. -/
def Order.clean (o : Order) : Except String Unit :=
  if o.customer.user_type ≠ "student" then
    Except.error "Only students can place orders."
  else if o.service.service_type ≠ "ordering" then
    Except.error "Orders can only be placed for ordering-type services."
  else if o.service.is_available = false then
    Except.error "Cannot place order for unavailable service."
  else
    Except.ok ()

/-- `Order.save`: when `total_amount` is unset (`if not self.total_amount`,
so `None` and `0` both count as unset), compute it from the order's
items; then `clean` and persist. -/
def Order.save (o : Order) (items : List OrderItem) : Except String Order := do
  let o := if pyFalsyQ o.total_amount then
    { o with total_amount := some (Order.calculate_total items) }
  else o
  Order.clean o
  Except.ok o

/-! ### Reviews and service rating recomputation (services/models.py) -/

/-- A review (`services.Review`). -/
structure Review where
  id : Nat
  serviceId : Nat
  user : User
  rating : Int
deriving Repr, DecidableEq

/-- Python `round` at a given number of decimals rounds half to even;
this is `round(x, 2)` on the exact rational value. -/
def pyRound2 (q : ℚ) : ℚ :=
  let scaled : ℚ := q * 100
  let f : ℤ := ⌊scaled⌋
  let r : ℤ :=
    if scaled - f < 1 / 2 then f
    else if scaled - f > 1 / 2 then f + 1
    else if f % 2 = 0 then f else f + 1
  (r : ℚ) / 100

/-- `Review.clean`: only students review, ratings lie in 1..5, and no
other row may review the same service for the same user. -/
def Review.clean (db : List Review) (r : Review) : Except String Unit :=
  if r.user.user_type ≠ "student" then
    Except.error "Only students can write reviews."
  else if r.rating < 1 ∨ r.rating > 5 then
    Except.error "Rating must be between 1 and 5."
  else if (db.filter (fun x =>
      x.serviceId = r.serviceId && x.user.id = r.user.id && x.id ≠ r.id)).isEmpty = false then
    Except.error "You have already reviewed this service."
  else
    Except.ok ()

/-- `Review.update_service_rating`: recompute the service's `rating` and
`total_ratings` from all reviews of the service currently stored. -/
def Review.update_service_rating (db : List Review) (s : Service) : Service :=
  let reviews := db.filter (fun x => x.serviceId = s.id)
  if reviews.isEmpty = false then
    let total : Int := (reviews.map (fun x => x.rating)).sum
    let avg : ℚ := (total : ℚ) / (reviews.length : ℚ)
    { s with rating := some (pyRound2 avg), total_ratings := reviews.length }
  else
    { s with rating := none, total_ratings := 0 }

/-- `Review.save` of a new review against the service it reviews: `clean`,
insert, then recompute the service's rating from the post-insert table. -/
def Review.saveNew (db : List Review) (s : Service) (r : Review) :
    Except String (List Review × Service) := do
  Review.clean db r
  let db' := db ++ [r]
  Except.ok (db', Review.update_service_rating db' s)

/-! ### Notification preferences and quiet hours (notifications/utils.py)

Times of day are minutes since midnight (`Nat`); `django.utils.timezone`
supplies `now`. -/

/-- Notification preferences (`notifications.NotificationPreference`):
the fields `send_notification` and `is_in_quiet_hours` read. -/
structure NotificationPreference where
  quiet_hours_enabled : Bool
  quiet_hours_start : Option Nat
  quiet_hours_end : Option Nat
  email_enabled : Bool
  push_enabled : Bool
  sms_enabled : Bool
  max_notifications_per_hour : Nat
  max_notifications_per_day : Nat
deriving Repr, DecidableEq

/-- An in-app notification row: the per-notification channel switches and
the sent flag. -/
structure NotificationRow where
  id : Nat
  send_email : Bool
  send_push : Bool
  send_sms : Bool
  is_sent : Bool
deriving Repr, DecidableEq

/-- `is_in_quiet_hours` (notifications/utils.py): false when disabled or
when either boundary is unset; for `start <= end` membership in the
closed range; otherwise the range crosses midnight. -/
def isInQuietHours (now : Nat) (p : NotificationPreference) : Bool :=
  if p.quiet_hours_enabled = false then
    false
  else
    match p.quiet_hours_start, p.quiet_hours_end with
    | some s, some e =>
      if s ≤ e then decide (s ≤ now ∧ now ≤ e)
      else decide (now ≥ s ∨ now ≤ e)
    | _, _ => false

/-- `check_rate_limits` (notifications/utils.py), with the two queryset
counts passed in. -/
def checkRateLimits (p : NotificationPreference) (hourlyCount dailyCount : Nat) : Bool :=
  if hourlyCount ≥ p.max_notifications_per_hour then false
  else if dailyCount ≥ p.max_notifications_per_day then false
  else true

/-- `send_notification` (notifications/utils.py): return the list of
channels delivered through and the final notification row.  Inside quiet
hours (or past the rate limits) the function returns before delivering or
marking the row sent. -/
def sendNotification (now : Nat) (p : NotificationPreference)
    (n : NotificationRow) (hourlyCount dailyCount : Nat) :
    List String × NotificationRow :=
  if p.quiet_hours_enabled && isInQuietHours now p then
    ([], n)
  else if checkRateLimits p hourlyCount dailyCount = false then
    ([], n)
  else
    let channels :=
      (if n.send_email && p.email_enabled then ["email"] else []) ++
      (if n.send_push && p.push_enabled then ["push"] else []) ++
      (if n.send_sms && p.sms_enabled then ["sms"] else [])
    (channels, { n with is_sent := true })

/-! ### `create_payment` (payments/views.py)

The view reads `booking.service.price`.  The `Service` class declares its
pricing field as `base_price` and defines no attribute named `price`
(its other members are the fields and the properties `can_book`,
`can_order`, `can_walk_in`, `needs_contact`, `supported_service_types`,
`min_price`, `max_price`), so this Python attribute access raises
`AttributeError`.  Attribute access is embedded as dispatch on the
attribute name over the scalar members the payments views can reach; any
name the class does not define yields `missing`. -/

/-- Result of a Python attribute access on a model instance. -/
inductive PyAttr where
  | decimalVal (v : Option ℚ)
  | boolVal (v : Bool)
  | strVal (v : String)
  | natVal (v : Nat)
  | missing
deriving Repr, DecidableEq

/-- `getattr` on a `Service` instance for the scalar attribute names the
`Service` class defines.  There is no branch for `"price"` because the
class defines no such attribute. -/
def Service.getattr (s : Service) (name : String) : PyAttr :=
  if name = "service_name" then PyAttr.strVal s.service_name
  else if name = "service_type" then PyAttr.strVal s.service_type
  else if name = "base_price" then PyAttr.decimalVal s.base_price
  else if name = "has_flexible_pricing" then PyAttr.boolVal s.has_flexible_pricing
  else if name = "is_available" then PyAttr.boolVal s.is_available
  else if name = "rating" then PyAttr.decimalVal s.rating
  else if name = "total_ratings" then PyAttr.natVal s.total_ratings
  else if name = "supports_booking" then PyAttr.boolVal s.supports_booking
  else if name = "supports_ordering" then PyAttr.boolVal s.supports_ordering
  else if name = "supports_walk_in" then PyAttr.boolVal s.supports_walk_in
  else if name = "requires_contact" then PyAttr.boolVal s.requires_contact
  else PyAttr.missing

/-- Model choices for `Payment.payment_method`. -/
def paymentMethodChoices : List String :=
  ["cash", "mobile_money", "card", "bank_transfer"]

/-- The `PaymentSerializer` validation run by `create_payment` once the
payment data has been built (amount equal to the service price by
construction, so the object-level comparison against
`booking.service.price` passes): choice check on the method, then
`validate_amount`, then `validate_booking`. -/
def paymentSerializerIsValid (payments : List Payment) (b : Booking)
    (amount : ℚ) (method : String) : Except String Unit :=
  if paymentMethodChoices.contains method = false then
    Except.error "Not a valid choice."
  else if amount ≤ 0 then
    Except.error "Payment amount must be greater than zero."
  else if b.booking_status ≠ "confirmed" ∧ b.booking_status ≠ "pending" then
    Except.error "Payment can only be made for confirmed or pending bookings."
  else if (payments.filter (fun pay =>
      pay.booking = some b.id && pay.status = "successful")).isEmpty = false then
    Except.error "Payment has already been made for this booking."
  else
    Except.ok ()

/-- `create_payment` (payments/views.py) for a request carrying
`booking_id` and `payment_method`, where `b` is the booking row the ids
resolve to and `sv` its service.  After the field, permission and
duplicate-payment checks, the view builds the payment data; the first
step reads `booking.service.price`, and a missing attribute propagates to
the catch-all handler, which returns the generic 500 body without
touching the payments table. -/
def createPayment (requestUser : User) (booking_id : Option Nat)
    (payment_method : Option String) (b : Booking) (sv : Service)
    (payments : List Payment) (freshId : Nat) : HttpStatus × List Payment :=
  if booking_id.isNone then
    (400, payments)
  else if pyFalsyS payment_method then
    (400, payments)
  else if b.student ≠ requestUser then
    (403, payments)
  else if (payments.filter (fun pay =>
      pay.booking = some b.id && pay.status = "successful")).isEmpty = false then
    (400, payments)
  else
    match Service.getattr sv "price" with
    | PyAttr.decimalVal (some amt) =>
      (match paymentSerializerIsValid payments b amt (payment_method.getD "") with
       | Except.ok _ =>
         let p : Payment :=
           { id := freshId, booking := some b.id, order := none, amount := amt,
             payment_method := payment_method.getD "", mobile_money_provider := none,
             phone_number := none, transaction_id := "TXN_FRESH", status := "pending" }
         (match Payment.save payments p with
          | Except.ok payments' => (201, payments')
          | Except.error _ => (400, payments))
       | Except.error _ => (400, payments))
    | _ => (500, payments)

/-! ### Concrete sample data

Fixture records used to evaluate the embedded operations on concrete
inputs. -/

def studentA : User := ⟨1, "student"⟩

def studentB : User := ⟨2, "student"⟩

def vendorA : User := ⟨3, "vendor"⟩

def svcBooking : Service :=
  { id := 10, vendor := vendorA, service_name := "Haircut", service_type := "booking",
    base_price := some 15, has_flexible_pricing := false, is_available := true,
    contact_info := none, rating := none, total_ratings := 0,
    supports_booking := true, supports_ordering := false, supports_walk_in := false,
    requires_contact := false }

def svcUnavailable : Service :=
  { svcBooking with id := 11, service_name := "Closed", is_available := false }

def svcOrdering : Service :=
  { svcBooking with
    id := 12, service_name := "Food", service_type := "ordering",
    supports_booking := false, supports_ordering := true }

def bk1 : Booking := ⟨21, 10, studentA, 100, "pending"⟩

def bkCompleted : Booking := ⟨22, 10, studentA, 200, "completed"⟩

def payPending : Payment :=
  { id := 31, booking := some 21, order := none, amount := 15,
    payment_method := "cash", mobile_money_provider := none, phone_number := none,
    transaction_id := "T31", status := "pending" }

def paySuccessful : Payment := { payPending with id := 32, status := "successful" }

def itemShirt : ServiceItem := ⟨41, 12, "Shirt", 5, true⟩

def oi1 : OrderItem := ⟨51, 61, itemShirt, 3, none, none⟩

def ord1 : Order := ⟨61, svcOrdering, studentA, "pending", none⟩

def prefsQuiet : NotificationPreference :=
  ⟨true, some 1320, some 360, true, true, true, 10, 50⟩

def notifRow : NotificationRow := ⟨71, true, true, false, false⟩

def revA : Review := ⟨81, 10, studentA, 4⟩

def revB : Review := ⟨82, 10, studentB, 5⟩

/-! ## Helper lemmas -/

/-- A filter is non-empty exactly when some element satisfies the
predicate. -/
theorem filter_isEmpty_false_iff {α : Type} (l : List α) (p : α → Bool) :
    (l.filter p).isEmpty = false ↔ ∃ x ∈ l, p x = true := by
  simp [List.isEmpty_iff, List.filter_eq_nil_iff]

/-- A filter is empty exactly when no element satisfies the predicate. -/
theorem filter_isEmpty_true_iff {α : Type} (l : List α) (p : α → Bool) :
    (l.filter p).isEmpty = true ↔ ∀ x ∈ l, ¬ p x = true := by
  simp [List.isEmpty_iff, List.filter_eq_nil_iff]

/-- `Payment.clean` never reads the `status` field, so overwriting the
status does not change its verdict. -/
theorem Payment.clean_status_update (p : Payment) (s : String) :
    Payment.clean { p with status := s } = Payment.clean p := rfl

/-! ## Claim theorems -/

/-- C1 counterexample: a payment carrying both a booking and an order
passes `Payment.clean` and satisfies the check constraint
`payment_has_booking_or_order`, and `Payment.save` stores it — the claim
that such a payment is rejected is false. -/
theorem C1_counterexample :
    Payment.clean
      { id := 1, booking := some 7, order := some 9, amount := 10,
        payment_method := "cash", mobile_money_provider := none,
        phone_number := none, transaction_id := "T1", status := "pending" } =
      Except.ok () ∧
    paymentHasBookingOrOrder
      { id := 1, booking := some 7, order := some 9, amount := 10,
        payment_method := "cash", mobile_money_provider := none,
        phone_number := none, transaction_id := "T1", status := "pending" } = true ∧
    Payment.save []
      { id := 1, booking := some 7, order := some 9, amount := 10,
        payment_method := "cash", mobile_money_provider := none,
        phone_number := none, transaction_id := "T1", status := "pending" } =
      Except.ok
        [{ id := 1, booking := some 7, order := some 9, amount := 10,
           payment_method := "cash", mobile_money_provider := none,
           phone_number := none, transaction_id := "T1", status := "pending" }] :=
  ⟨rfl, rfl, rfl⟩

/-- C1 (amended): every payment that passes validation and is stored has
at least one of booking/order set; a payment with neither is rejected by
`clean`; and the check constraint accepts a payment exactly when at least
one of the two references is set. -/
theorem C1_at_least_one (p : Payment) :
    (Payment.clean p = Except.ok () → (p.booking.isSome || p.order.isSome) = true) ∧
    (p.booking = none → p.order = none →
      ∃ msg, Payment.clean p = Except.error msg) ∧
    (∀ db db', Payment.save db p = Except.ok db' →
      (p.booking.isSome || p.order.isSome) = true) ∧
    paymentHasBookingOrOrder p = (p.booking.isSome || p.order.isSome) := by
  refine ⟨?_, ?_, ?_, rfl⟩
  · intro h
    unfold Payment.clean at h
    split_ifs at h with h1 h2 h3 h4
    simp only [Bool.and_eq_true, Option.isNone_iff_eq_none, not_and_or] at h2
    rcases h2 with h2 | h2 <;> simp [Option.isSome_iff_ne_none] at h2 ⊢ <;> simp [h2]
  · intro hb ho
    unfold Payment.clean
    split_ifs with h1 h2 h3 h4 <;> first | exact ⟨_, rfl⟩ | simp_all
  · intro db db' h
    unfold Payment.save at h
    simp only [bind, Except.bind] at h
    set p' := if p.transaction_id = "" then { p with transaction_id := "TXN_GEN" } else p
      with hp'
    have hsame : paymentHasBookingOrOrder p' = paymentHasBookingOrOrder p := by
      rw [hp']; split <;> rfl
    rcases hc : Payment.clean p' with m | u
    · rw [hc] at h; cases h
    · rw [hc] at h
      by_cases hk : paymentHasBookingOrOrder p' = true
      · rw [hsame] at hk
        unfold paymentHasBookingOrOrder at hk
        exact hk
      · simp [hk] at h

/-- C1 witness: a payment with a booking and no order passes `clean` and
has one of the two references; a payment with neither is rejected. -/
theorem C1_at_least_one_witness :
    (((⟨2, some 7, none, 5, "cash", none, none, "T2", "pending"⟩ : Payment).booking.isSome ||
      (⟨2, some 7, none, 5, "cash", none, none, "T2", "pending"⟩ : Payment).order.isSome) = true) ∧
    ∃ msg, Payment.clean ⟨3, none, none, 5, "cash", none, none, "T3", "pending"⟩ =
      Except.error msg :=
  ⟨(C1_at_least_one ⟨2, some 7, none, 5, "cash", none, none, "T2", "pending"⟩).1 rfl,
   (C1_at_least_one ⟨3, none, none, 5, "cash", none, none, "T3", "pending"⟩).2.1 rfl rfl⟩

/-- C2: evaluation at the failing input.  For the booking serializer the
field is `booking_status` while the only defined hook is
`validate_status`, so DRF applies no field validation: updating a
completed booking to pending is accepted and stored, although the static
table lists no transition out of `completed`.  The payment serializer
(field `status`) does enforce its table: a successful payment cannot be
updated again. -/
theorem C2_completed_booking_updated :
    drfHookDefined bookingStatusUpdateHooks "booking_status" = false ∧
    (transitionsFor bookingValidTransitions "completed").contains "pending" = false ∧
    bookingStatusUpdateIsValid "completed" "pending" = Except.ok "pending" ∧
    bookingStatusUpdateSave [bkCompleted] bkCompleted "pending" =
      Except.ok ([⟨22, 10, studentA, 200, "pending"⟩], ⟨22, 10, studentA, 200, "pending"⟩) ∧
    drfHookDefined paymentStatusUpdateHooks "status" = true ∧
    paymentStatusUpdateIsValid "successful" "successful" =
      Except.error "Cannot change status." :=
  ⟨rfl, rfl, rfl, rfl, rfl, rfl⟩

/-- C3: saving a booking whose service and date match an existing row is
rejected (the error result leaves the table unchanged), and a successful
save preserves the invariant that any two rows with distinct primary keys
differ in `(service, booking_date)`. -/
theorem C3_no_double_booking (db : List Booking) (b : Booking) :
    ((∃ x ∈ db, x.serviceId = b.serviceId ∧ x.booking_date = b.booking_date) →
      ∃ msg, Booking.saveNew db b = Except.error msg) ∧
    (∀ db', Booking.saveNew db b = Except.ok db' →
      noDoubleBooking db → noDoubleBooking db') := by
  constructor
  · rintro ⟨x, hx, h1, h2⟩
    have hfil : (db.filter (fun y =>
        y.serviceId = b.serviceId && y.booking_date = b.booking_date)).isEmpty = false := by
      rw [filter_isEmpty_false_iff]
      exact ⟨x, hx, by simp [h1, h2]⟩
    unfold Booking.saveNew
    rcases hc : Booking.clean db b with m | u <;> simp only [hc, bind, Except.bind]
    · exact ⟨m, rfl⟩
    · exact ⟨_, by rw [if_pos hfil]⟩
  · intro db' h hdb
    unfold Booking.saveNew at h
    simp only [bind, Except.bind] at h
    rcases hc : Booking.clean db b with m | u <;> rw [hc] at h
    · cases h
    · by_cases hk : (db.filter (fun y =>
          y.serviceId = b.serviceId && y.booking_date = b.booking_date)).isEmpty = false
      · simp [hk] at h
      · have hkt : (db.filter (fun y =>
            y.serviceId = b.serviceId && y.booking_date = b.booking_date)).isEmpty = true := by
          cases hE : (db.filter (fun y =>
            y.serviceId = b.serviceId && y.booking_date = b.booking_date)).isEmpty
          · exact absurd hE hk
          · rfl
        have hempty : ∀ x ∈ db,
            ¬ (x.serviceId = b.serviceId ∧ x.booking_date = b.booking_date) := by
          have hall := (filter_isEmpty_true_iff db (fun y =>
            y.serviceId = b.serviceId && y.booking_date = b.booking_date)).mp hkt
          intro x hx hcon
          exact hall x hx (by simp [hcon.1, hcon.2])
        rw [if_neg hk] at h
        injection h with h
        subst h
        intro x hx y hy hne
        rcases List.mem_append.mp hx with hxd | hxb <;>
          rcases List.mem_append.mp hy with hyd | hyb
        · exact hdb x hxd y hyd hne
        · have hyb' : y = b := by simpa using hyb
          subst hyb'
          intro hpair
          exact hempty x hxd ⟨congrArg Prod.fst hpair, congrArg Prod.snd hpair⟩
        · have hxb' : x = b := by simpa using hxb
          subst hxb'
          intro hpair
          exact hempty y hyd ⟨(congrArg Prod.fst hpair).symm, (congrArg Prod.snd hpair).symm⟩
        · have hxb' : x = b := by simpa using hxb
          have hyb' : y = b := by simpa using hyb
          subst hxb'; subst hyb'
          exact absurd rfl hne

/-- C3 witness: a concrete duplicate `(service, booking_date)` save is
rejected, and a fresh save into the empty table satisfies the invariant. -/
theorem C3_no_double_booking_witness :
    (∃ msg, Booking.saveNew [bk1] ⟨23, 10, studentB, 100, "pending"⟩ =
      Except.error msg) ∧
    noDoubleBooking [⟨23, 10, studentB, 100, "pending"⟩] :=
  ⟨(C3_no_double_booking [bk1] ⟨23, 10, studentB, 100, "pending"⟩).1
      ⟨bk1, by simp, rfl, rfl⟩,
   (C3_no_double_booking [] ⟨23, 10, studentB, 100, "pending"⟩).2 _ rfl
      (by intro x hx; simp at hx)⟩

/-- C4: a second review by the same user for the same service is rejected
by `Review.clean`, and after a successful save the service's `rating` is
the mean of the ratings of all stored reviews of that service rounded to
two decimals, with `total_ratings` their number. -/
theorem C4_review_unique_and_rating (db : List Review) (s : Service) (r : Review) :
    ((∃ x ∈ db, x.serviceId = r.serviceId ∧ x.user.id = r.user.id ∧ x.id ≠ r.id) →
      ∃ msg, Review.saveNew db s r = Except.error msg) ∧
    (∀ db' s', Review.saveNew db s r = Except.ok (db', s') → r.serviceId = s.id →
      db' = db ++ [r] ∧
      s'.rating = some (pyRound2
        ((((((db ++ [r]).filter (fun x => x.serviceId = s.id)).map
            (fun x => x.rating)).sum : Int) : ℚ) /
          ((((db ++ [r]).filter (fun x => x.serviceId = s.id)).length : Nat) : ℚ))) ∧
      s'.total_ratings = ((db ++ [r]).filter (fun x => x.serviceId = s.id)).length) := by
  constructor
  · rintro ⟨x, hx, h1, h2, h3⟩
    have hfil : (db.filter (fun y =>
        y.serviceId = r.serviceId && y.user.id = r.user.id && y.id ≠ r.id)).isEmpty = false := by
      rw [filter_isEmpty_false_iff]
      exact ⟨x, hx, by simp [h1, h2, h3]⟩
    have hclean : ∃ m, Review.clean db r = Except.error m := by
      unfold Review.clean
      split_ifs with h1 h2 <;> exact ⟨_, rfl⟩
    obtain ⟨m, hm⟩ := hclean
    unfold Review.saveNew
    simp only [hm, bind, Except.bind]
    exact ⟨m, rfl⟩
  · intro db' s' h hsid
    unfold Review.saveNew at h
    simp only [bind, Except.bind] at h
    rcases hc : Review.clean db r with m | u0 <;> rw [hc] at h
    · cases h
    · injection h with h
      injection h with h1 h2
      subst h1
      subst h2
      refine ⟨rfl, ?_, ?_⟩ <;>
      · have hne : ((db ++ [r]).filter (fun x => x.serviceId = s.id)).isEmpty = false := by
          rw [filter_isEmpty_false_iff]
          exact ⟨r, by simp, by simp [hsid]⟩
        unfold Review.update_service_rating
        rw [if_pos hne]

/-- C4 witness: a duplicate review by `studentA` is rejected, and after
saving `studentB`'s review the service's stored review count matches the
stored table. -/
theorem C4_review_witness :
    (∃ msg, Review.saveNew [revA] svcBooking ⟨83, 10, studentA, 3⟩ = Except.error msg) ∧
    (Review.update_service_rating ([revA] ++ [revB]) svcBooking).total_ratings =
      (([revA] ++ [revB]).filter (fun x => x.serviceId = svcBooking.id)).length :=
  ⟨(C4_review_unique_and_rating [revA] svcBooking ⟨83, 10, studentA, 3⟩).1
      ⟨revA, by simp, rfl, rfl, by decide⟩,
   ((C4_review_unique_and_rating [revA] svcBooking revB).2 _ _ rfl rfl).2.2⟩

/-- C5: booking creation rejects a date that is not strictly in the
future, rejects an unavailable service, rejects a slot already taken by a
pending or confirmed booking, and on success stores the requesting user
as the student, ignoring any student supplied in the request body. -/
theorem C5_booking_create (db : List Booking) (now : Int) (u : User) (sv : Service)
    (d : Int) (sup : Option User) (fid : Nat) :
    (d ≤ now → ∃ m, createBooking db now u sv d sup fid = Except.error m) ∧
    (sv.is_available = false → ∃ m, createBooking db now u sv d sup fid = Except.error m) ∧
    ((∃ x ∈ db, x.serviceId = sv.id ∧ x.booking_date = d ∧
        (x.booking_status = "pending" ∨ x.booking_status = "confirmed")) →
      ∃ m, createBooking db now u sv d sup fid = Except.error m) ∧
    (∀ db' b, createBooking db now u sv d sup fid = Except.ok (db', b) →
      b.student = u) := by
  refine ⟨?_, ?_, ?_, ?_⟩
  · intro hd
    refine ⟨"Booking date must be in the future.", ?_⟩
    simp [createBooking, validateBookingDate, hd, bind, Except.bind]
  · intro hav
    by_cases hd : d ≤ now
    · refine ⟨"Booking date must be in the future.", ?_⟩
      simp [createBooking, validateBookingDate, hd, bind, Except.bind]
    · refine ⟨"This service is not available for booking.", ?_⟩
      simp [createBooking, validateBookingDate, bookingSerializerValidate,
        hd, hav, bind, Except.bind]
  · rintro ⟨x, hx, h1, h2, h3⟩
    by_cases hd : d ≤ now
    · refine ⟨"Booking date must be in the future.", ?_⟩
      simp [createBooking, validateBookingDate, hd, bind, Except.bind]
    · by_cases hav : sv.is_available = false
      · refine ⟨"This service is not available for booking.", ?_⟩
        simp [createBooking, validateBookingDate, bookingSerializerValidate,
          hd, hav, bind, Except.bind]
      · have hfil : (db.filter (fun y => y.serviceId = sv.id && y.booking_date = d &&
            (y.booking_status = "pending" || y.booking_status = "confirmed"))).isEmpty
            = false := by
          rw [filter_isEmpty_false_iff]
          refine ⟨x, hx, ?_⟩
          rcases h3 with h3 | h3 <;> simp [h1, h2, h3]
        refine ⟨"This time slot is already booked. Please choose a different time.", ?_⟩
        simp [createBooking, validateBookingDate, bookingSerializerValidate,
          hd, hav, hfil, bind, Except.bind]
  · intro db' b h
    unfold createBooking at h
    simp only [bind, Except.bind] at h
    split at h
    · cases h
    · split at h
      · cases h
      · split at h
        · cases h
        · injection h with h
          injection h with h1 h2
          subst h2
          rfl

/-- C5 witness: a past date is rejected, and a successful creation stores
the requesting student, not the student supplied in the request. -/
theorem C5_booking_create_witness :
    (∃ m, createBooking [] 100 studentA svcBooking 50 none 99 = Except.error m) ∧
    Booking.student ⟨99, 10, studentA, 150, "pending"⟩ = studentA :=
  ⟨(C5_booking_create [] 100 studentA svcBooking 50 none 99).1 (by norm_num),
   (C5_booking_create [] 100 studentA svcBooking 150 (some studentB) 99).2.2.2 _ _ rfl⟩

/-- C6: for a pending payment on the requester's booking, the process
endpoint answers 200, sets the payment to successful, and confirms the
booking when it was pending (leaving it otherwise); for an already
successful payment it answers 400 and changes nothing. -/
theorem C6_process_payment (u : User) (pid : Nat) (ref : String)
    (p : Payment) (b : Booking) (db : List Booking)
    (href : ref ≠ "") (hown : b.student = u)
    (hclean : Payment.clean p = Except.ok ())
    (hstu : b.student.user_type = "student")
    (hdb : ∀ x ∈ db, x.serviceId = b.serviceId ∧ x.booking_date = b.booking_date →
      x.id = b.id) :
    (p.status = "pending" →
      (processPaystackPayment u (some pid) (some ref) p b db).code = 200 ∧
      (processPaystackPayment u (some pid) (some ref) p b db).payment =
        { p with status := "successful" } ∧
      (b.booking_status = "pending" →
        (processPaystackPayment u (some pid) (some ref) p b db).booking =
          { b with booking_status := "confirmed" }) ∧
      (b.booking_status ≠ "pending" →
        (processPaystackPayment u (some pid) (some ref) p b db).booking = b)) ∧
    (p.status = "successful" →
      processPaystackPayment u (some pid) (some ref) p b db = ⟨400, p, b, db⟩) := by
  have hfemp : (db.filter (fun x =>
      x.serviceId = b.serviceId && x.booking_date = b.booking_date && x.id ≠ b.id)).isEmpty
      = true := by
    rw [filter_isEmpty_true_iff]
    intro x hx hcon
    simp only [Bool.and_eq_true, decide_eq_true_eq] at hcon
    exact absurd (hdb x hx ⟨hcon.1.1, hcon.1.2⟩) hcon.2
  have hcleanB : ∀ st, Booking.clean db { b with booking_status := st } = Except.ok () := by
    intro st
    unfold Booking.clean
    dsimp only
    split_ifs with h1 h2
    · exact absurd hstu h1
    · rw [hfemp] at h2
      cases h2
    · rfl
  have hsave : ∀ st, Booking.saveUpdate db { b with booking_status := st } =
      Except.ok (db.map (fun x =>
        if x.id = b.id then { b with booking_status := st } else x)) := by
    intro st
    unfold Booking.saveUpdate
    rw [hcleanB st]
    rfl
  have hv : paymentStatusUpdateIsValid "pending" "successful" = Except.ok "successful" := rfl
  constructor
  · intro hp
    have hns : ¬ (p.status = "successful") := by rw [hp]; decide
    unfold processPaystackPayment
    rw [if_neg (by simp), if_neg (by simp [pyFalsyS, href]), if_neg (by simp [hown]),
      if_neg hns, hp, hv]
    dsimp only
    rw [Payment.clean_status_update, hclean]
    dsimp only
    by_cases hb : b.booking_status = "pending"
    · rw [if_pos hb, hsave "confirmed"]
      exact ⟨rfl, rfl, fun _ => rfl, fun hnb => absurd hb hnb⟩
    · rw [if_neg hb]
      exact ⟨rfl, rfl, fun hbp => absurd hbp hb, fun _ => rfl⟩
  · intro hp
    unfold processPaystackPayment
    rw [if_neg (by simp), if_neg (by simp [pyFalsyS, href]), if_neg (by simp [hown]),
      if_pos hp]

/-- C6 witness: a concrete pending payment is processed to successful and
its pending booking is confirmed; a successful payment yields 400 with
nothing changed. -/
theorem C6_process_payment_witness :
    (processPaystackPayment studentA (some 31) (some "ref1") payPending bk1 [bk1]).code
      = 200 ∧
    (processPaystackPayment studentA (some 31) (some "ref1") payPending bk1 [bk1]).booking
      = { bk1 with booking_status := "confirmed" } ∧
    processPaystackPayment studentA (some 32) (some "ref2") paySuccessful bk1 [bk1]
      = ⟨400, paySuccessful, bk1, [bk1]⟩ :=
  ⟨((C6_process_payment studentA 31 "ref1" payPending bk1 [bk1] (by decide) rfl rfl rfl
      (by intro x hx h; simp at hx; rw [hx])).1 rfl).1,
   ((C6_process_payment studentA 31 "ref1" payPending bk1 [bk1] (by decide) rfl rfl rfl
      (by intro x hx h; simp at hx; rw [hx])).1 rfl).2.2.1 rfl,
   (C6_process_payment studentA 32 "ref2" paySuccessful bk1 [bk1] (by decide) rfl rfl rfl
      (by intro x hx h; simp at hx; rw [hx])).2 rfl⟩

/-- C7: an order saved with an unset total receives the sum of its items'
totals, a nonzero caller-supplied total is kept, and a saved order item
stores `total_price = unit_price * quantity` with the unit price defaulted
from the service item when unset. -/
theorem C7_order_total (o : Order) (items : List OrderItem) (it : OrderItem) :
    (pyFalsyQ o.total_amount = true → ∀ o', Order.save o items = Except.ok o' →
      o'.total_amount = some (Order.calculate_total items)) ∧
    (∀ t, o.total_amount = some t → t ≠ 0 → ∀ o', Order.save o items = Except.ok o' →
      o'.total_amount = some t) ∧
    ((OrderItem.save it).total_price =
      some (((OrderItem.save it).unit_price.getD 0) * (it.quantity : ℚ))) ∧
    (pyFalsyQ it.unit_price = true →
      (OrderItem.save it).unit_price = some it.service_item.price) ∧
    (∀ v, it.unit_price = some v → v ≠ 0 → (OrderItem.save it).unit_price = some v) := by
  refine ⟨?_, ?_, rfl, ?_, ?_⟩
  · intro hf o' hs
    unfold Order.save at hs
    rw [if_pos hf] at hs
    simp only [bind, Except.bind] at hs
    rcases hc : Order.clean { o with total_amount := some (Order.calculate_total items) }
      with m | u0 <;> rw [hc] at hs
    · cases hs
    · injection hs with hs
      subst hs
      rfl
  · intro t ht hnz o' hs
    have hf : pyFalsyQ o.total_amount = false := by
      rw [ht]
      simpa [pyFalsyQ] using hnz
    unfold Order.save at hs
    rw [if_neg (by simp [hf])] at hs
    simp only [bind, Except.bind] at hs
    rcases hc : Order.clean o with m | u0 <;> rw [hc] at hs
    · cases hs
    · injection hs with hs
      subst hs
      exact ht
  · intro hf
    unfold OrderItem.save
    rw [if_pos hf]
  · intro v hv hnz
    have hf : pyFalsyQ it.unit_price = false := by
      rw [hv]
      simpa [pyFalsyQ] using hnz
    unfold OrderItem.save
    rw [if_neg (by simp [hf]), hv]
    rfl

/-- C7 witness: a concrete order with no total receives the sum of its
items, and a concrete item with no unit price takes the service item's
price. -/
theorem C7_order_total_witness :
    ({ ord1 with total_amount := some (Order.calculate_total [OrderItem.save oi1]) }
        : Order).total_amount = some (Order.calculate_total [OrderItem.save oi1]) ∧
    (OrderItem.save oi1).unit_price = some itemShirt.price :=
  ⟨(C7_order_total ord1 [OrderItem.save oi1] oi1).1 rfl _ rfl,
   (C7_order_total ord1 [OrderItem.save oi1] oi1).2.2.2.1 rfl⟩

/-- C8: `is_in_quiet_hours` is false when disabled or a boundary is
unset; in a non-crossing range it is membership in `[start, end]`; in a
range crossing midnight it holds when the time is at or after the start
or at or before the end; and inside quiet hours `send_notification`
delivers through no channel and leaves the row unchanged (in particular
not marked sent). -/
theorem C8_quiet_hours (now : Nat) (p : NotificationPreference) (n : NotificationRow)
    (hc dc : Nat) :
    (p.quiet_hours_enabled = false → isInQuietHours now p = false) ∧
    (p.quiet_hours_start = none ∨ p.quiet_hours_end = none →
      isInQuietHours now p = false) ∧
    (∀ s e, p.quiet_hours_enabled = true → p.quiet_hours_start = some s →
      p.quiet_hours_end = some e →
      (s ≤ e → (isInQuietHours now p = true ↔ (s ≤ now ∧ now ≤ e))) ∧
      (e < s → (isInQuietHours now p = true ↔ (now ≥ s ∨ now ≤ e)))) ∧
    (p.quiet_hours_enabled = true → isInQuietHours now p = true →
      sendNotification now p n hc dc = ([], n)) := by
  refine ⟨?_, ?_, ?_, ?_⟩
  · intro h
    unfold isInQuietHours
    rw [if_pos h]
  · intro h
    unfold isInQuietHours
    split_ifs with h1
    · rfl
    · rcases hs : p.quiet_hours_start with _ | s <;>
        rcases he : p.quiet_hours_end with _ | e <;> simp_all
  · intro s e hen hs he
    unfold isInQuietHours
    rw [if_neg (by simp [hen]), hs, he]
    dsimp only
    constructor
    · intro hse
      rw [if_pos hse]
      simp
    · intro hes
      rw [if_neg (by omega)]
      simp
  · intro hen hq
    unfold sendNotification
    rw [if_pos (by rw [hen, hq]; rfl)]

/-- C8 witness: with quiet hours 22:00 to 06:00 (crossing midnight),
23:00 is inside, and `send_notification` then delivers nothing. -/
theorem C8_quiet_hours_witness :
    isInQuietHours 1380 prefsQuiet = true ∧
    sendNotification 1380 prefsQuiet notifRow 0 0 = ([], notifRow) := by
  have h1 := ((C8_quiet_hours 1380 prefsQuiet notifRow 0 0).2.2.1 1320 360
    rfl rfl rfl).2 (by decide)
  have hin : isInQuietHours 1380 prefsQuiet = true := h1.mpr (Or.inl (by decide))
  exact ⟨hin, (C8_quiet_hours 1380 prefsQuiet notifRow 0 0).2.2.2 rfl hin⟩

/-- C9: an authenticated `create_payment` request with both fields
present, a booking owned by the requester and no successful payment on
it, reaches the `booking.service.price` attribute access; the `Service`
class defines no `price` attribute, so the view answers 500 and stores no
payment row. -/
theorem C9_create_payment_500 (u : User) (bid : Nat) (method : String)
    (b : Booking) (sv : Service) (payments : List Payment) (fid : Nat)
    (hm : method ≠ "") (hown : b.student = u)
    (hnosucc : ∀ pay ∈ payments, ¬ (pay.booking = some b.id ∧ pay.status = "successful")) :
    createPayment u (some bid) (some method) b sv payments fid = (500, payments) := by
  have hattr : Service.getattr sv "price" = PyAttr.missing := rfl
  have hfem : (payments.filter (fun pay =>
      pay.booking = some b.id && pay.status = "successful")).isEmpty = true := by
    rw [filter_isEmpty_true_iff]
    intro x hx hcon
    simp only [Bool.and_eq_true, decide_eq_true_eq] at hcon
    exact hnosucc x hx ⟨hcon.1, hcon.2⟩
  unfold createPayment
  rw [if_neg (by simp), if_neg (by simp [pyFalsyS, hm]), if_neg (by simp [hown]),
    if_neg (by simp [hfem]), hattr]

/-- C9 witness: a concrete well-formed request is answered 500 and the
payments table stays empty. -/
theorem C9_create_payment_500_witness :
    createPayment studentA (some 21) (some "cash") bk1 svcBooking [] 99 = (500, []) :=
  C9_create_payment_500 studentA 21 "cash" bk1 svcBooking [] 99 (by decide) rfl
    (by intro pay hp; cases hp)

/-- C10: after a successful `Service.save`, each of the four support
flags equals the test of `service_type` against its own type (whatever
the caller had set), and for the four declared service types exactly one
flag is true. -/
theorem C10_service_flags (s s' : Service) (h : Service.save s = Except.ok s') :
    s'.supports_booking = decide (s.service_type = "booking") ∧
    s'.supports_ordering = decide (s.service_type = "ordering") ∧
    s'.supports_walk_in = decide (s.service_type = "walk_in") ∧
    s'.requires_contact = decide (s.service_type = "contact") ∧
    (s.service_type = "booking" ∨ s.service_type = "ordering" ∨
        s.service_type = "contact" ∨ s.service_type = "walk_in" →
      [s'.supports_booking, s'.supports_ordering, s'.supports_walk_in,
        s'.requires_contact].count true = 1) := by
  unfold Service.save at h
  simp only [bind, Except.bind] at h
  split at h
  · cases h
  · injection h with h
    subst h
    refine ⟨rfl, rfl, rfl, rfl, ?_⟩
    rintro (ht | ht | ht | ht) <;> simp [ht, List.count_cons]

/-- C10 witness: saving a booking-type service whose `supports_booking`
flag was wrongly cleared restores the flag, and exactly one flag is set. -/
theorem C10_service_flags_witness :
    [svcBooking.supports_booking, svcBooking.supports_ordering,
      svcBooking.supports_walk_in, svcBooking.requires_contact].count true = 1 :=
  (C10_service_flags { svcBooking with supports_booking := false } svcBooking rfl).2.2.2.2
    (Or.inl rfl)

end UCSP
